import Mathlib

/-!
Verification of the event-time normalization and aggregation subsystem of the
FlightReport repository.

The subsystem consists of three pieces of Python code:
- `convert_time_string_to_datetime` (TimeResolver) in
  `src/components/data_processing/time_utils.py`,
- `handle_midnight_crossover` (MidnightCrossoverAdjuster) in the same file,
- `calculate_average_event_times` (MultiFlightAverager), duplicated in
  `src/components/data_processing/event_processing.py` and
  `src/components/timeline_chart.py`.

Modelling choices:
- A Python `datetime` is modelled as an `Int`: the number of seconds since an
  arbitrary day-aligned epoch.  `datetime.date()` is floor division by 86400
  (`Int.ediv`), `datetime.hour` is the hour of the seconds-of-day component.
  All `datetime` arithmetic in the source is whole-second arithmetic, so this
  is exact; `timedelta(days=1)` is `86400`.
- A date string `"YYYY-MM-DD"` is modelled as its day number (an `Int`).  The
  claims under study only involve well-formed dates.
- Python float division in the averaging code is modelled by exact rational
  division (`ℚ`); all sums involved are small integers, for which binary64
  division followed by `//`, `%` and `int` agrees with the exact rational
  semantics on every input appearing in the claims.
- Python dicts are modelled as association lists (`List (String × _)`) in
  insertion order; `dict.get` is `List.lookup`.
-/

/-- A value stored for an event in a flight record: Python `None` (or an absent
key), a `datetime.time` object (hour/minute/second, range-checked on
construction in Python, hence `Fin`), or a raw string. -/
inductive TimeValue where
  | null : TimeValue
  | timeObj (h : Fin 24) (m : Fin 60) (s : Fin 60) : TimeValue
  | str (s : String) : TimeValue
deriving DecidableEq

/-- Numeric value of a decimal digit character. -/
def dval (c : Char) : Nat := c.toNat - 48

/-- Hour field of `strptime`ʼs `%H` directive: the regex `2[0-3]|[0-1]\d|\d`,
alternatives tried left to right, applied to a prefix of the input. -/
def parseHour : List Char → Option (Nat × List Char)
  | [] => none
  | [c] => if c.isDigit then some (dval c, []) else none
  | c :: d :: rest =>
    if c = '2' then
      if d = '0' ∨ d = '1' ∨ d = '2' ∨ d = '3' then some (20 + dval d, rest)
      else some (2, d :: rest)
    else if (c = '0' ∨ c = '1') ∧ d.isDigit then some (10 * dval c + dval d, rest)
    else if c.isDigit then some (dval c, d :: rest)
    else none

/-- Minute field of `strptime`ʼs `%M` directive: the regex `[0-5]\d|\d`. -/
def parseMinute : List Char → Option (Nat × List Char)
  | [] => none
  | [c] => if c.isDigit then some (dval c, []) else none
  | c :: d :: rest =>
    if ('0' ≤ c ∧ c ≤ '5') ∧ d.isDigit then some (10 * dval c + dval d, rest)
    else if c.isDigit then some (dval c, d :: rest)
    else none

/-- Parse of the time part of `strptime(dt_str, "%Y-%m-%d %H:%M")`: an hour, a
literal colon, a minute, and nothing left over (`strptime` raises on
unconverted trailing data, which the source converts to `None`). -/
def parseHM (cs : List Char) : Option (Nat × Nat) :=
  match parseHour cs with
  | none => none
  | some (h, rest) =>
    match rest with
    | ':' :: rest2 =>
      match parseMinute rest2 with
      | none => none
      | some (m, rest3) => if rest3 = [] then some (h, m) else none
    | _ => none

/-- Seconds-of-day denoted by a raw time string, after the sourceʼs truncation
`time_str = time_str[:5]` for strings longer than 5 characters (this drops a
`:SS` suffix), or `none` when `strptime` would raise. -/
def strTimeSeconds (s : String) : Option Int :=
  let cs := s.toList
  let cs := if cs.length > 5 then cs.take 5 else cs
  (parseHM cs).map (fun hm => (hm.1 : Int) * 3600 + (hm.2 : Int) * 60)

/-- Embedding of `convert_time_string_to_datetime` (time_utils.py, lines
17-48).  `dateDays` is the parsed day number of the `date_str` argument.  A
`None` time yields `None`; a `time` object is combined with the date keeping
its seconds; a string is truncated to `HH:MM` and parsed, any parse failure
yielding `None` via the catch-all `except`. -/
def convert_time_string_to_datetime (dateDays : Int) (time_obj : TimeValue) : Option Int :=
  match time_obj with
  | TimeValue.null => none
  | TimeValue.timeObj h m s =>
    some (dateDays * 86400 + ((h.val : Int) * 3600 + (m.val : Int) * 60 + (s.val : Int)))
  | TimeValue.str s => (strTimeSeconds s).map (fun sec => dateDays * 86400 + sec)

/-- Seconds since midnight of the day a timestamp falls on. -/
def secOfDay (t : Int) : Int := t % 86400

/-- Python `datetime.hour` of an absolute timestamp. -/
def hourOfDay (t : Int) : Int := secOfDay t / 3600

/-- Python `dt.hour * 60 + dt.minute` of an absolute timestamp (the seconds
component is below 60, so this is the seconds-of-day divided by 60, floored). -/
def minuteOfDay (t : Int) : Int := secOfDay t / 60

/-- An `events_dict`: event name to timestamp-or-`None`, in insertion order. -/
abbrev EventsDict := List (String × Option Int)

/-- Early-phase event names (`early_events` in the source). -/
def early_events : List String := ["groomers_in", "crew_at_gate"]

/-- Late-phase event names (`late_events` in the source). -/
def late_events : List String := ["flight_secure", "cierre_de_puerta", "push_back", "atd"]

/-- Embedding of `[events_dict[e] for e in names if e in events_dict and
events_dict[e] is not None]`. -/
def presentTimes (d : EventsDict) (names : List String) : List Int :=
  names.filterMap (fun e => (List.lookup e d).bind id)

/-- Mean minute-of-day of a list of timestamps, `sum(...) / len(...)` as exact
rational division (of the Python float division). -/
def avgMinutes (ts : List Int) : ℚ :=
  Rat.divInt (ts.map minuteOfDay).sum (ts.length : Int)

/-- Embedding of the `is_overnight` classification in
`handle_midnight_crossover` (time_utils.py, lines 76-85): both groups present,
early mean greater than late mean, early mean after 20:00, late mean before
04:00. -/
def is_overnight (d : EventsDict) : Bool :=
  let early_times := presentTimes d early_events
  let late_times := presentTimes d late_events
  !early_times.isEmpty && !late_times.isEmpty &&
    decide (avgMinutes late_times < avgMinutes early_times) &&
    decide ((1200 : ℚ) < avgMinutes early_times) &&
    decide (avgMinutes late_times < (240 : ℚ))

/-- Python `min(v :: vs)`. -/
def listMin (v : Int) (vs : List Int) : Int := vs.foldl min v

/-- Per-event body of the adjustment loop of `handle_midnight_crossover`
(time_utils.py, lines 91-109): `None` passes through; on an overnight flight a
late-phase event before noon gains a day; otherwise the event is moved one day
towards `min_time` when its distance exceeds 12 hours (`hours_diff > 12` on
whole seconds is `diff > 43200`, `hours_diff < -12` is `diff < -43200`). -/
def adjustEvent (flag : Bool) (min_time : Int) (p : String × Option Int) : String × Option Int :=
  match p.2 with
  | none => (p.1, none)
  | some event_time =>
    if flag = true ∧ p.1 ∈ late_events ∧ hourOfDay event_time < 12 then
      (p.1, some (event_time + 86400))
    else if event_time - min_time > 43200 then (p.1, some (event_time - 86400))
    else if event_time - min_time < -43200 then (p.1, some (event_time + 86400))
    else (p.1, some event_time)

/-- Embedding of `handle_midnight_crossover` (time_utils.py, lines 50-111).
The `flight_date` argument is only used for logging in the source and is
ignored.  With no valid times the dict is returned unchanged; otherwise every
entry is rewritten by `adjustEvent` with the overnight flag and the minimum
valid timestamp. -/
def handle_midnight_crossover (events_dict : EventsDict) (flight_date : Int) : EventsDict :=
  match events_dict.filterMap (fun p => p.2) with
  | [] => events_dict
  | v :: vs => events_dict.map (adjustEvent (is_overnight events_dict) (listMin v vs))

/-- A flight record as consumed by `calculate_average_event_times`:
`flight_date` is the parsed day number of `flight.get("flight_date")` (`none`
models a missing or falsy value, which makes the source skip the flight), and
`events` is `flight.get(name)` for each event name (`TimeValue.null` models
both an absent key and a stored `None`). -/
structure Flight where
  flight_date : Option Int
  events : String → TimeValue

/-- Python truthiness of a time value as tested by `if time_str:`:
`None` and the empty string are falsy; `datetime.time` objects are truthy. -/
def TimeValue.truthy : TimeValue → Bool
  | TimeValue.null => false
  | TimeValue.timeObj _ _ _ => true
  | TimeValue.str s => !s.isEmpty

/-- The fixed event vocabulary (`events` in both copies of the averager). -/
def eventNames : List String :=
  ["groomers_in", "groomers_out", "crew_at_gate", "ok_to_board",
   "flight_secure", "cierre_de_puerta", "push_back", "std", "atd"]

/-- Embedding of the sample-collection phase shared verbatim by both copies of
`calculate_average_event_times`: for one event name, the resolved timestamps
contributed by each flight in order — flights without a truthy `flight_date`
are skipped, falsy time values are skipped, and unparseable time values
contribute nothing. -/
def collectEventTimes (flights_data : List Flight) (event_name : String) : List Int :=
  flights_data.filterMap (fun flight =>
    match flight.flight_date with
    | none => none
    | some flight_date =>
      let time_str := flight.events event_name
      if time_str.truthy then convert_time_string_to_datetime flight_date time_str
      else none)

/-- Python `sorted(times_list)` on timestamps. -/
def sortTimes (times_list : List Int) : List Int :=
  List.insertionSort (fun a b => a ≤ b) times_list

/-- Overnight detection shared by both averager copies: scan adjacent pairs of
the sorted list for a gap of more than 12 hours (`total_seconds() > 12*3600`). -/
def hasBigGap : List Int → Bool
  | a :: b :: rest => if b - a > 43200 then true else hasBigGap (b :: rest)
  | _ => false

/-- Adjustment loop of the event_processing.py averager (lines 102-118): each
element is compared against the previous element of the already ADJUSTED list
(`temp_adjusted_times[i-1]`); a gap above +12h pulls it back one day, a gap
below -12h pushes it forward one day. -/
def adjustLoopA (previous_time : Int) : List Int → List Int
  | [] => []
  | current_time :: rest =>
    if current_time - previous_time > 43200 then
      (current_time - 86400) :: adjustLoopA (current_time - 86400) rest
    else if previous_time - current_time > 43200 then
      (current_time + 86400) :: adjustLoopA (current_time + 86400) rest
    else
      current_time :: adjustLoopA current_time rest

/-- Full adjusted list of the event_processing.py averager: the first sorted
time is kept, the rest run through `adjustLoopA`. -/
def adjustTimesA : List Int → List Int
  | [] => []
  | t :: ts => t :: adjustLoopA t ts

/-- Adjustment loop of the timeline_chart.py averager (lines 384-390): each
element is compared against the previous element of the ORIGINAL sorted list
(`sorted_times[i-1]`), and only the backward (pull back one day) shift exists. -/
def adjustLoopB (previous_time : Int) : List Int → List Int
  | [] => []
  | current_time :: rest =>
    (if current_time - previous_time > 43200 then current_time - 86400 else current_time)
      :: adjustLoopB current_time rest

/-- Full adjusted list of the timeline_chart.py averager. -/
def adjustTimesB : List Int → List Int
  | [] => []
  | t :: ts => t :: adjustLoopB t ts

/-- Embedding of the averaging arithmetic shared by both copies, as a function
of `total_seconds_from_midnight` and the sample count: the mean is taken by
exact rational division (of the Python float division), then split into
hour/minute/second with Python `//` and `%` (floor semantics; the `int(...)`
truncations act on non-negative values and are floors).  Both callers guard
the count to be positive; `Rat.divInt _ 0 = 0` is never reached. -/
def avgOfSum (total_seconds_from_midnight : Int) (n : Nat) : Int :=
  let avg_seconds_from_midnight : ℚ := Rat.divInt total_seconds_from_midnight (n : Int)
  let avg_hour : Int := Int.floor (avg_seconds_from_midnight / 3600)
  let avg_minute : Int :=
    Int.floor ((avg_seconds_from_midnight - 3600 * (avg_hour : ℚ)) / 60)
  let avg_second : Int :=
    Int.floor (avg_seconds_from_midnight
      - 60 * ((Int.floor (avg_seconds_from_midnight / 60) : Int) : ℚ))
  avg_hour * 3600 + avg_minute * 60 + avg_second

/-- Mean time-of-day (as seconds) of a list of timestamps, via
`sum(t.hour * 3600 + t.minute * 60 + t.second for t in ...)` and `avgOfSum`. -/
def avgTimeOfDay (ts : List Int) : Int :=
  avgOfSum ((ts.map secOfDay).sum) ts.length

/-- Per-event body of `calculate_average_event_times` in event_processing.py
(lines 59-141): empty sample lists are skipped; otherwise the sorted list is
gap-scanned, adjusted with `adjustTimesA` when a crossover is detected, and
averaged; the result is attached to the date of the first (earliest) original
sorted timestamp. -/
def eventAverage (times_list : List Int) : Option Int :=
  if times_list.isEmpty then none
  else
    let sorted_times := sortTimes times_list
    let adjusted_times_for_avg :=
      if hasBigGap sorted_times then adjustTimesA sorted_times else sorted_times
    some (sorted_times.headD 0 / 86400 * 86400 + avgTimeOfDay adjusted_times_for_avg)

/-- Per-event body of the event_processing.py averager with its two genuinely
fallible operations made explicit (`sorted_times[0]` indexing and the division
by `len(adjusted_times_for_avg)`), for the claim that the surrounding
`try/except` never has anything to catch. -/
def eventAverageE (times_list : List Int) : Except String (Option Int) :=
  if times_list.isEmpty then Except.ok none
  else
    let sorted_times := sortTimes times_list
    let adjusted_times_for_avg :=
      if hasBigGap sorted_times then adjustTimesA sorted_times else sorted_times
    if adjusted_times_for_avg.length = 0 then Except.error "ZeroDivisionError"
    else
      match sorted_times with
      | [] => Except.error "IndexError"
      | first :: _ =>
        Except.ok (some (first / 86400 * 86400 + avgTimeOfDay adjusted_times_for_avg))

/-- Per-event body of `calculate_average_event_times` in timeline_chart.py
(lines 368-414): same skip and gap scan; on crossover the `adjustTimesB`
variant is used; the average computation is written out separately in each
branch in the source but is the same arithmetic. -/
def eventAverageTC (times : List Int) : Option Int :=
  if times.isEmpty then none
  else
    let sorted_times := sortTimes times
    if hasBigGap sorted_times then
      some (sorted_times.headD 0 / 86400 * 86400
        + avgTimeOfDay (adjustTimesB sorted_times))
    else
      some (sorted_times.headD 0 / 86400 * 86400 + avgTimeOfDay sorted_times)

/-- Fallible-operation version of `eventAverageTC`, mirroring `eventAverageE`. -/
def eventAverageTCE (times : List Int) : Except String (Option Int) :=
  if times.isEmpty then Except.ok none
  else
    let sorted_times := sortTimes times
    if hasBigGap sorted_times then
      let adjusted_times := adjustTimesB sorted_times
      if adjusted_times.length = 0 then Except.error "ZeroDivisionError"
      else
        match sorted_times with
        | [] => Except.error "IndexError"
        | first :: _ =>
          Except.ok (some (first / 86400 * 86400 + avgTimeOfDay adjusted_times))
    else
      if sorted_times.length = 0 then Except.error "ZeroDivisionError"
      else
        match sorted_times with
        | [] => Except.error "IndexError"
        | first :: _ =>
          Except.ok (some (first / 86400 * 86400 + avgTimeOfDay sorted_times))

/-- Result-assembly loop over the event vocabulary, parametrized by the
per-event body: events with no samples are omitted from the result dict, the
others are inserted in vocabulary order.  An error from the body aborts the
whole computation (the Python exception propagating to the `try`). -/
def calcLoop (body : List Int → Except String (Option Int))
    (flights_data : List Flight) : List String → Except String (List (String × Int))
  | [] => Except.ok []
  | event_name :: rest =>
    match body (collectEventTimes flights_data event_name) with
    | Except.error msg => Except.error msg
    | Except.ok none => calcLoop body flights_data rest
    | Except.ok (some t) =>
      match calcLoop body flights_data rest with
      | Except.error msg => Except.error msg
      | Except.ok tail => Except.ok ((event_name, t) :: tail)

/-- Infallible counterpart of `calcLoop`. -/
def calcLoopPure (body : List Int → Option Int)
    (flights_data : List Flight) : List String → List (String × Int)
  | [] => []
  | event_name :: rest =>
    match body (collectEventTimes flights_data event_name) with
    | none => calcLoopPure body flights_data rest
    | some t => (event_name, t) :: calcLoopPure body flights_data rest

/-- Body of the `try` block of `calculate_average_event_times`
(event_processing.py, lines 21-143). -/
def calc_avg_body (flights_data : List Flight) : Except String (List (String × Int)) :=
  calcLoop eventAverageE flights_data eventNames

/-- Embedding of `calculate_average_event_times` in event_processing.py: the
`try/except` wrapper returns the body's dict, or an empty dict if any
exception was raised inside. -/
def calculate_average_event_times (flights_data : List Flight) : List (String × Int) :=
  match calc_avg_body flights_data with
  | Except.ok result => result
  | Except.error _ => []

namespace timeline_chart

/-- Body of the `try` block of the duplicated `calculate_average_event_times`
(timeline_chart.py, lines 341-416). -/
def calc_avg_body (flights_data : List Flight) : Except String (List (String × Int)) :=
  calcLoop eventAverageTCE flights_data eventNames

/-- Embedding of `calculate_average_event_times` in timeline_chart.py, with
the same `try/except` wrapper shape. -/
def calculate_average_event_times (flights_data : List Flight) : List (String × Int) :=
  match calc_avg_body flights_data with
  | Except.ok result => result
  | Except.error _ => []

end timeline_chart

/-! Concrete inputs used by the claim evaluations.  Day 19732 in the
1970-01-01 day count is 2024-01-10; 19731 is 2024-01-09; 19733 is 2024-01-11.
A time HH:MM resolved on day d is `d * 86400 + HH * 3600 + MM * 60`. -/

/-- Flight record of the C1 cohort: `flight_date` 2024-01-10 and a single
`push_back` time string. -/
def C1flight (t : String) : Flight :=
  ⟨some 19732, fun e => if e = "push_back" then TimeValue.str t else TimeValue.null⟩

/-- The C1 cohort: `push_back` at 23:50, 23:55 and 00:05. -/
def C1flights : List Flight := [C1flight "23:50", C1flight "23:55", C1flight "00:05"]

/-- The C2 scenario events, resolved through the TimeResolver on reference
date 2024-01-10. -/
def C2dict : EventsDict :=
  [("groomers_in", convert_time_string_to_datetime 19732 (TimeValue.str "23:10")),
   ("crew_at_gate", convert_time_string_to_datetime 19732 (TimeValue.str "23:40")),
   ("cierre_de_puerta", convert_time_string_to_datetime 19732 (TimeValue.str "00:35")),
   ("push_back", convert_time_string_to_datetime 19732 (TimeValue.str "00:40")),
   ("atd", convert_time_string_to_datetime 19732 (TimeValue.str "00:45"))]

/-- Counterexample input for C3: `groomers_in` at 2024-01-10 23:10 and
`cierre_de_puerta` at 2024-01-11 00:35 — only 1h25m apart (well inside a
12-hour window), but on different calendar days. -/
def C3dict : EventsDict :=
  [("groomers_in", some (19732 * 86400 + 83400)),
   ("cierre_de_puerta", some (19733 * 86400 + 2100))]

/-- Witness input for the amended C3: two events on the same day, one hour
apart. -/
def C3wdict : EventsDict :=
  [("std", some (19732 * 86400 + 3600)), ("atd", some (19732 * 86400 + 7200))]

/-- Witness input for C4: `crew_at_gate` 23:40 and `atd` 00:45, both resolved
on 2024-01-10, triggering the overnight classification. -/
def C4dict : EventsDict :=
  [("crew_at_gate", some (19732 * 86400 + 85200)),
   ("atd", some (19732 * 86400 + 2700))]

/-- The C5 scenario events: only `std` 23:55 and `atd` 00:05, resolved through
the TimeResolver on reference date 2024-01-10. -/
def C5dict : EventsDict :=
  [("std", convert_time_string_to_datetime 19732 (TimeValue.str "23:55")),
   ("atd", convert_time_string_to_datetime 19732 (TimeValue.str "00:05"))]

/-- Flight record of the C6 cohort: an arbitrary reference day and a single
`groomers_in` time string. -/
def C6flight (d : Int) (t : String) : Flight :=
  ⟨some d, fun e => if e = "groomers_in" then TimeValue.str t else TimeValue.null⟩


/-! General helper lemmas about the embedded operations. -/

/-- A successful association-list lookup comes from an entry of the list. -/
lemma lookup_mem {d : EventsDict} {e : String} {v : Option Int}
    (h : List.lookup e d = some v) : (e, v) ∈ d := by
  induction d with
  | nil => simp [List.lookup] at h
  | cons p rest ih =>
    obtain ⟨k, b⟩ := p
    by_cases hek : e = k
    · subst hek
      simp [List.lookup] at h
      simp [h]
    · have hbeq : (e == k) = false := by
        simp [hek]
      rw [List.lookup, hbeq] at h
      exact List.mem_cons_of_mem _ (ih h)

/-- Every time contributed to an early/late group is one of the dictʼs valid
(non-`None`) values. -/
lemma presentTimes_subset {d : EventsDict} {names : List String} {t : Int}
    (ht : t ∈ presentTimes d names) : t ∈ d.filterMap (fun p => p.2) := by
  rw [presentTimes, List.mem_filterMap] at ht
  obtain ⟨e, _, he⟩ := ht
  rw [List.mem_filterMap]
  cases hl : List.lookup e d with
  | none => rw [hl] at he; simp at he
  | some v =>
    cases v with
    | none => rw [hl] at he; simp at he
    | some x =>
      rw [hl] at he
      simp at he
      exact ⟨(e, some x), lookup_mem hl, by simp [he]⟩

/-- Pythonʼs `min` over a nonempty list is a lower bound. -/
lemma listMin_le : ∀ (vs : List Int) (v t : Int), t ∈ v :: vs → listMin v vs ≤ t := by
  intro vs
  induction vs with
  | nil =>
    intro v t ht
    have hv : t = v := by simpa using ht
    simp [listMin, hv]
  | cons w ws ih =>
    intro v t ht
    have hstep : listMin v (w :: ws) = listMin (min v w) ws := rfl
    have hinit : listMin (min v w) ws ≤ min v w :=
      ih (min v w) (min v w) (List.mem_cons_self _ _)
    rw [hstep]
    rcases List.mem_cons.mp ht with h1 | h2
    · rw [h1]; exact le_trans hinit (min_le_left _ _)
    · rcases List.mem_cons.mp h2 with h3 | h4
      · rw [h3]; exact le_trans hinit (min_le_right _ _)
      · exact ih (min v w) t (List.mem_cons_of_mem _ h4)

/-- Pythonʼs `min` over a nonempty list is one of its elements. -/
lemma listMin_mem : ∀ (vs : List Int) (v : Int), listMin v vs ∈ v :: vs := by
  intro vs
  induction vs with
  | nil => intro v; simp [listMin]
  | cons w ws ih =>
    intro v
    have hstep : listMin v (w :: ws) = listMin (min v w) ws := rfl
    rw [hstep]
    rcases List.mem_cons.mp (ih (min v w)) with h1 | h2
    · rcases min_choice v w with hv | hw
      · rw [h1, hv]; exact List.mem_cons_self _ _
      · rw [h1, hw]; exact List.mem_cons_of_mem _ (List.mem_cons_self _ _)
    · exact List.mem_cons_of_mem _ (List.mem_cons_of_mem _ h2)

/-- If the rational mean of the minute-of-day values of a nonempty list
exceeds `c`, some element exceeds `c`. -/
lemma exists_minute_gt_of_avg_gt (ts : List Int) (c : Int) (hne : ts ≠ [])
    (h : (c : ℚ) < avgMinutes ts) : ∃ t ∈ ts, c < minuteOfDay t := by
  by_contra hc
  push_neg at hc
  have hsum : (ts.map minuteOfDay).sum ≤ (ts.map minuteOfDay).length • c :=
    List.sum_le_card_nsmul _ c (by
      intro x hx
      rw [List.mem_map] at hx
      obtain ⟨t, ht, rfl⟩ := hx
      exact hc t ht)
  rw [List.length_map, nsmul_eq_mul] at hsum
  rw [avgMinutes, Rat.divInt_eq_div] at h
  have hlen : 0 < (ts.length : ℚ) := by
    have : 0 < ts.length := List.length_pos.mpr hne
    exact_mod_cast this
  have hcast : ((ts.length : Int) : ℚ) = (ts.length : ℚ) := by push_cast; rfl
  rw [hcast, lt_div_iff hlen] at h
  have hsumq : (((ts.map minuteOfDay).sum : Int) : ℚ) ≤ (ts.length : ℚ) * (c : ℚ) := by
    exact_mod_cast hsum
  rw [mul_comm] at hsumq
  exact absurd (lt_of_lt_of_le h hsumq) (lt_irrefl _)

/-- If the rational mean of the minute-of-day values of a nonempty list is
below `c`, some element is below `c`. -/
lemma exists_minute_lt_of_avg_lt (ts : List Int) (c : Int) (hne : ts ≠ [])
    (h : avgMinutes ts < (c : ℚ)) : ∃ t ∈ ts, minuteOfDay t < c := by
  by_contra hc
  push_neg at hc
  have hsum : (ts.map minuteOfDay).length • c ≤ (ts.map minuteOfDay).sum :=
    List.card_nsmul_le_sum _ c (by
      intro x hx
      rw [List.mem_map] at hx
      obtain ⟨t, ht, rfl⟩ := hx
      exact hc t ht)
  rw [List.length_map, nsmul_eq_mul] at hsum
  rw [avgMinutes, Rat.divInt_eq_div] at h
  have hlen : 0 < (ts.length : ℚ) := by
    have : 0 < ts.length := List.length_pos.mpr hne
    exact_mod_cast this
  have hcast : ((ts.length : Int) : ℚ) = (ts.length : ℚ) := by push_cast; rfl
  rw [hcast, div_lt_iff hlen] at h
  have hsumq : (c : ℚ) * (ts.length : ℚ) ≤ (((ts.map minuteOfDay).sum : Int) : ℚ) := by
    rw [mul_comm]
    exact_mod_cast hsum
  exact absurd (lt_of_le_of_lt hsumq h) (lt_irrefl _)

/-- Moving a timestamp one day back leaves its time of day unchanged. -/
lemma secOfDay_sub_day (t : Int) : secOfDay (t - 86400) = secOfDay t := by
  unfold secOfDay
  omega

/-- Moving a timestamp one day forward leaves its time of day unchanged. -/
lemma secOfDay_add_day (t : Int) : secOfDay (t + 86400) = secOfDay t := by
  unfold secOfDay
  omega

/-- The event_processing.py adjustment loop only moves entries by whole days,
so the times of day are untouched. -/
lemma map_secOfDay_adjustLoopA : ∀ (l : List Int) (p : Int),
    (adjustLoopA p l).map secOfDay = l.map secOfDay := by
  intro l
  induction l with
  | nil => intro p; rfl
  | cons t ts ih =>
    intro p
    unfold adjustLoopA
    by_cases h1 : t - p > 43200
    · rw [if_pos h1]
      simp [List.map_cons, secOfDay_sub_day, ih]
    · rw [if_neg h1]
      by_cases h2 : p - t > 43200
      · rw [if_pos h2]
        simp [List.map_cons, secOfDay_add_day, ih]
      · rw [if_neg h2]
        simp [List.map_cons, ih]

/-- Day-shift invariance of `adjustTimesA` on times of day. -/
lemma map_secOfDay_adjustTimesA (l : List Int) :
    (adjustTimesA l).map secOfDay = l.map secOfDay := by
  cases l with
  | nil => rfl
  | cons t ts => simp [adjustTimesA, List.map_cons, map_secOfDay_adjustLoopA]

/-- The timeline_chart.py adjustment loop only moves entries by whole days. -/
lemma map_secOfDay_adjustLoopB : ∀ (l : List Int) (p : Int),
    (adjustLoopB p l).map secOfDay = l.map secOfDay := by
  intro l
  induction l with
  | nil => intro p; rfl
  | cons t ts ih =>
    intro p
    unfold adjustLoopB
    by_cases h1 : t - p > 43200
    · rw [if_pos h1]
      simp [List.map_cons, secOfDay_sub_day, ih]
    · rw [if_neg h1]
      simp [List.map_cons, ih]

/-- Day-shift invariance of `adjustTimesB` on times of day. -/
lemma map_secOfDay_adjustTimesB (l : List Int) :
    (adjustTimesB l).map secOfDay = l.map secOfDay := by
  cases l with
  | nil => rfl
  | cons t ts => simp [adjustTimesB, List.map_cons, map_secOfDay_adjustLoopB]

/-- Sorting is a permutation. -/
lemma sortTimes_perm (l : List Int) : (sortTimes l).Perm l :=
  List.perm_insertionSort _ l

/-- Sorting preserves length. -/
lemma sortTimes_length (l : List Int) : (sortTimes l).length = l.length :=
  (sortTimes_perm l).length_eq

/-- Sorting preserves the total seconds-of-day. -/
lemma sum_map_secOfDay_sortTimes (l : List Int) :
    ((sortTimes l).map secOfDay).sum = (l.map secOfDay).sum :=
  ((sortTimes_perm l).map secOfDay).sum_eq

/-- Sorting a nonempty list yields a nonempty list. -/
lemma sortTimes_ne_nil {l : List Int} (h : l.isEmpty = false) : sortTimes l ≠ [] := by
  intro hn
  have hlen := sortTimes_length l
  rw [hn] at hlen
  cases l with
  | nil => simp at h
  | cons a as => simp at hlen

/-- The averaging arithmetic only depends on the times of day. -/
lemma avgTimeOfDay_congr {l1 l2 : List Int} (h : l1.map secOfDay = l2.map secOfDay) :
    avgTimeOfDay l1 = avgTimeOfDay l2 := by
  unfold avgTimeOfDay
  rw [h]
  congr 1
  have hlen := congrArg List.length h
  simpa using hlen

/-- The averaging arithmetic is insensitive to sorting. -/
lemma avgTimeOfDay_sortTimes (l : List Int) : avgTimeOfDay (sortTimes l) = avgTimeOfDay l := by
  unfold avgTimeOfDay
  rw [sum_map_secOfDay_sortTimes, sortTimes_length]

/-- Closed form of the event_processing.py per-event average: the anchor day of
the earliest sample plus the mean time of day of the ORIGINAL samples — the
crossover adjustment cannot influence the mean, because it only moves samples
by whole days and the mean is computed from times of day alone. -/
lemma eventAverage_spec (l : List Int) (hne : l.isEmpty = false) :
    eventAverage l
      = some ((sortTimes l).headD 0 / 86400 * 86400 + avgTimeOfDay l) := by
  rw [eventAverage, hne]
  simp only [Bool.false_eq_true, if_false]
  cases hg : hasBigGap (sortTimes l)
  · simp only [hg, Bool.false_eq_true, if_false]
    rw [avgTimeOfDay_sortTimes]
  · simp only [hg, if_true]
    rw [avgTimeOfDay_congr (map_secOfDay_adjustTimesA (sortTimes l)), avgTimeOfDay_sortTimes]

/-- Closed form of the timeline_chart.py per-event average: identical to the
event_processing.py one. -/
lemma eventAverageTC_spec (l : List Int) (hne : l.isEmpty = false) :
    eventAverageTC l
      = some ((sortTimes l).headD 0 / 86400 * 86400 + avgTimeOfDay l) := by
  rw [eventAverageTC, hne]
  simp only [Bool.false_eq_true, if_false]
  cases hg : hasBigGap (sortTimes l)
  · simp only [hg, Bool.false_eq_true, if_false]
    rw [avgTimeOfDay_sortTimes]
  · simp only [hg, if_true]
    rw [avgTimeOfDay_congr (map_secOfDay_adjustTimesB (sortTimes l)), avgTimeOfDay_sortTimes]

/-- The two per-event averagers agree on every sample list. -/
lemma eventAverage_eq_TC (l : List Int) : eventAverage l = eventAverageTC l := by
  cases he : l.isEmpty
  · rw [eventAverage_spec l he, eventAverageTC_spec l he]
  · have hl : l = [] := by
      cases l with
      | nil => rfl
      | cons a as => simp at he
    rw [hl]
    rfl

/-- The fallible per-event body of event_processing.py never errors: the empty
guard rules out both the indexing and the division by zero. -/
lemma eventAverageE_ok (l : List Int) : eventAverageE l = Except.ok (eventAverage l) := by
  cases he : l.isEmpty
  case false =>
    obtain ⟨first, rest, hs⟩ : ∃ a as, sortTimes l = a :: as := by
      cases hsx : sortTimes l with
      | nil => exact absurd hsx (sortTimes_ne_nil he)
      | cons a as => exact ⟨a, as, rfl⟩
    rw [eventAverageE, eventAverage, he]
    simp only [Bool.false_eq_true, if_false]
    have hlen : ¬((if hasBigGap (sortTimes l) then adjustTimesA (sortTimes l)
        else sortTimes l).length = 0) := by
      cases hg : hasBigGap (sortTimes l)
      · simp only [hg, Bool.false_eq_true, if_false]
        rw [hs]
        simp
      · simp only [hg, if_true]
        rw [hs]
        simp [adjustTimesA]
    rw [if_neg hlen, hs]
    rfl
  case true =>
    have hl : l = [] := by
      cases l with
      | nil => rfl
      | cons a as => simp at he
    rw [hl]
    rfl

/-- The fallible per-event body of timeline_chart.py never errors. -/
lemma eventAverageTCE_ok (l : List Int) : eventAverageTCE l = Except.ok (eventAverageTC l) := by
  cases he : l.isEmpty
  case false =>
    obtain ⟨first, rest, hs⟩ : ∃ a as, sortTimes l = a :: as := by
      cases hsx : sortTimes l with
      | nil => exact absurd hsx (sortTimes_ne_nil he)
      | cons a as => exact ⟨a, as, rfl⟩
    rw [eventAverageTCE, eventAverageTC, he]
    simp only [Bool.false_eq_true, if_false]
    cases hg : hasBigGap (sortTimes l)
    · simp only [hg, Bool.false_eq_true, if_false]
      have hlen : ¬((sortTimes l).length = 0) := by
        rw [hs]
        simp
      rw [if_neg hlen, hs]
      rfl
    · simp only [hg, if_true]
      have hlen : ¬((adjustTimesB (sortTimes l)).length = 0) := by
        rw [hs]
        simp [adjustTimesB]
      rw [if_neg hlen, hs]
      rfl
  case true =>
    have hl : l = [] := by
      cases l with
      | nil => rfl
      | cons a as => simp at he
    rw [hl]
    rfl

/-- If the per-event body never errors, neither does the assembly loop, and it
computes the infallible loop. -/
lemma calcLoop_ok (bodyE : List Int → Except String (Option Int))
    (bodyP : List Int → Option Int)
    (hb : ∀ l, bodyE l = Except.ok (bodyP l)) (fd : List Flight) :
    ∀ names : List String,
      calcLoop bodyE fd names = Except.ok (calcLoopPure bodyP fd names) := by
  intro names
  induction names with
  | nil => rfl
  | cons e rest ih =>
    cases hbp : bodyP (collectEventTimes fd e) with
    | none => simp only [calcLoop, calcLoopPure, hb, hbp, ih]
    | some t => simp only [calcLoop, calcLoopPure, hb, hbp, ih]

/-- The event_processing.py averager equals its infallible form. -/
lemma calculate_average_event_times_eq_pure (fd : List Flight) :
    calculate_average_event_times fd = calcLoopPure eventAverage fd eventNames := by
  rw [calculate_average_event_times, calc_avg_body,
    calcLoop_ok eventAverageE eventAverage eventAverageE_ok fd eventNames]

/-- The timeline_chart.py averager equals its infallible form. -/
lemma timeline_calculate_average_event_times_eq_pure (fd : List Flight) :
    timeline_chart.calculate_average_event_times fd
      = calcLoopPure eventAverageTC fd eventNames := by
  rw [timeline_chart.calculate_average_event_times, timeline_chart.calc_avg_body,
    calcLoop_ok eventAverageTCE eventAverageTC eventAverageTCE_ok fd eventNames]

/-- Characterization of the overnight classification as a proposition. -/
lemma is_overnight_iff (d : EventsDict) :
    is_overnight d = true ↔
      (presentTimes d early_events ≠ [] ∧ presentTimes d late_events ≠ []
        ∧ avgMinutes (presentTimes d late_events) < avgMinutes (presentTimes d early_events)
        ∧ (1200 : ℚ) < avgMinutes (presentTimes d early_events)
        ∧ avgMinutes (presentTimes d late_events) < (240 : ℚ)) := by
  rw [is_overnight]
  simp only [Bool.and_eq_true, Bool.not_eq_true', decide_eq_true_eq]
  constructor
  · rintro ⟨⟨⟨⟨h1, h2⟩, h3⟩, h4⟩, h5⟩
    refine ⟨?_, ?_, h3, h4, h5⟩
    · intro hn
      rw [hn] at h1
      simp at h1
    · intro hn
      rw [hn] at h2
      simp at h2
  · rintro ⟨h1, h2, h3, h4, h5⟩
    refine ⟨⟨⟨⟨?_, ?_⟩, h3⟩, h4⟩, h5⟩
    · cases hl : presentTimes d early_events with
      | nil => exact absurd hl h1
      | cons a as => rfl
    · cases hl : presentTimes d late_events with
      | nil => exact absurd hl h2
      | cons a as => rfl

/-- On a dict whose valid values all sit on one calendar day `D`, the
overnight classification cannot fire: the early and late mean minutes would
have to be more than 16 hours apart, but all minute-of-day values then live in
one day, and any two valid values are within the window hypothesis. -/
lemma is_overnight_false_of_same_day_window (dict : EventsDict) (w D : Int)
    (hw : ∀ t ∈ dict.filterMap (fun p => p.2), w ≤ t ∧ t ≤ w + 43200)
    (hD : ∀ t ∈ dict.filterMap (fun p => p.2), D * 86400 ≤ t ∧ t < (D + 1) * 86400) :
    is_overnight dict = false := by
  cases h : is_overnight dict
  · rfl
  · exfalso
    obtain ⟨h1, h2, h3, h4, h5⟩ := (is_overnight_iff dict).mp h
    obtain ⟨t1, ht1mem, ht1⟩ := exists_minute_gt_of_avg_gt _ 1200 h1 h4
    obtain ⟨t2, ht2mem, ht2⟩ := exists_minute_lt_of_avg_lt _ 240 h2 h5
    have h1v := presentTimes_subset ht1mem
    have h2v := presentTimes_subset ht2mem
    have hw1 := hw t1 h1v
    have hw2 := hw t2 h2v
    have hD1 := hD t1 h1v
    have hD2 := hD t2 h2v
    rw [minuteOfDay, secOfDay] at ht1 ht2
    omega

/-! Claim theorems. -/

/-- Claim C2 (code_bug evaluation): for groomers_in=23:10, crew_at_gate=23:40,
cierre_de_puerta=00:35, push_back=00:40, atd=00:45 all resolved on 2024-01-10
(day 19732), the adjuster does shift the three late-phase events to 2024-01-11
(day 19733), but it does NOT leave the early-phase events on 2024-01-10: the
fallback gap rule moves them back to 2024-01-09 (day 19731), because their
distance from `min_time` (00:35) exceeds +12h.  The second conjunct records
that the produced groomers_in value differs from the one the claim requires. -/
theorem C2_early_events_shifted_to_previous_day :
    handle_midnight_crossover C2dict 19732 =
        [("groomers_in", some (19731 * 86400 + 83400)),
         ("crew_at_gate", some (19731 * 86400 + 85200)),
         ("cierre_de_puerta", some (19733 * 86400 + 2100)),
         ("push_back", some (19733 * 86400 + 2400)),
         ("atd", some (19733 * 86400 + 2700))]
      ∧ (some (19731 * 86400 + 83400) : Option Int) ≠ some (19732 * 86400 + 83400) :=
  ⟨by decide, by decide⟩

/-- Claim C3 (counterexample): an input whose two non-null timestamps are only
1h25m apart (inside a 12-hour window) but on different calendar days is NOT
returned unchanged — the overnight heuristic fires on the minute-of-day values
and shifts `cierre_de_puerta` again.  So the adjuster is not the identity on
every 12-hour-window input. -/
theorem C3_counterexample_cross_day_window_not_identity :
    (∀ t ∈ C3dict.filterMap (fun p => p.2),
        19732 * 86400 + 83400 ≤ t ∧ t ≤ 19732 * 86400 + 83400 + 43200)
      ∧ handle_midnight_crossover C3dict 19732 ≠ C3dict :=
  ⟨by decide, by decide⟩

/-- Claim C3 (amended): if all non-null timestamps of the input lie within one
12-hour window AND on one calendar day (which is the shape every input
resolved from a single reference date has), the adjuster returns the dict
unchanged. -/
theorem C3_amended_same_day_window_identity (dict : EventsDict) (fd w D : Int)
    (hw : ∀ t ∈ dict.filterMap (fun p => p.2), w ≤ t ∧ t ≤ w + 43200)
    (hD : ∀ t ∈ dict.filterMap (fun p => p.2), D * 86400 ≤ t ∧ t < (D + 1) * 86400) :
    handle_midnight_crossover dict fd = dict := by
  rw [handle_midnight_crossover]
  cases hv : dict.filterMap (fun p => p.2) with
  | nil => rfl
  | cons v vs =>
    have hflag := is_overnight_false_of_same_day_window dict w D hw hD
    have hmin_mem : listMin v vs ∈ dict.filterMap (fun p => p.2) := by
      rw [hv]
      exact listMin_mem vs v
    have hminw := hw _ hmin_mem
    have hmap : ∀ p ∈ dict, adjustEvent (is_overnight dict) (listMin v vs) p = p := by
      intro p hp
      obtain ⟨e, ov⟩ := p
      cases ov with
      | none => rfl
      | some t =>
        have htv : t ∈ dict.filterMap (fun p => p.2) :=
          List.mem_filterMap.mpr ⟨(e, some t), hp, rfl⟩
        have hwt := hw t htv
        have hmint : listMin v vs ≤ t := listMin_le vs v t (by rw [← hv]; exact htv)
        simp only [adjustEvent]
        rw [if_neg (by
            rw [hflag]
            rintro ⟨hcon, -, -⟩
            exact Bool.false_ne_true hcon),
          if_neg (by omega), if_neg (by omega)]
    exact (List.map_congr_left hmap).trans (List.map_id dict)

/-- Witness for the amended C3 at a concrete same-day input one hour apart. -/
theorem C3_amended_witness : handle_midnight_crossover C3wdict 19732 = C3wdict :=
  C3_amended_same_day_window_identity C3wdict 19732 (19732 * 86400 + 3600) 19732
    (by decide) (by decide)

/-- Claim C4: the adjuster classifies a flight overnight exactly when both
phase groups have present events, the early mean minute-of-day exceeds the
late mean, the early mean is above 1200 minutes and the late mean below 240
minutes; and when classified overnight, every late-phase entry whose hour of
day is below 12 is shifted forward by exactly one day in the output. -/
theorem C4_overnight_classification_and_shift (dict : EventsDict) (fd : Int) :
    (is_overnight dict = true ↔
      (presentTimes dict early_events ≠ [] ∧ presentTimes dict late_events ≠ []
        ∧ avgMinutes (presentTimes dict late_events) < avgMinutes (presentTimes dict early_events)
        ∧ (1200 : ℚ) < avgMinutes (presentTimes dict early_events)
        ∧ avgMinutes (presentTimes dict late_events) < (240 : ℚ)))
    ∧ (is_overnight dict = true →
        ∀ (e : String) (t : Int), (e, some t) ∈ dict → e ∈ late_events → hourOfDay t < 12 →
          (e, some (t + 86400)) ∈ handle_midnight_crossover dict fd) := by
  refine ⟨is_overnight_iff dict, ?_⟩
  intro hov e t hmem hlate hhour
  rw [handle_midnight_crossover]
  cases hv : dict.filterMap (fun p => p.2) with
  | nil =>
    exfalso
    have ht : t ∈ dict.filterMap (fun p => p.2) :=
      List.mem_filterMap.mpr ⟨(e, some t), hmem, rfl⟩
    rw [hv] at ht
    simp at ht
  | cons v vs =>
    have hadj : adjustEvent (is_overnight dict) (listMin v vs) (e, some t)
        = (e, some (t + 86400)) := by
      simp only [adjustEvent]
      rw [if_pos ⟨hov, hlate, hhour⟩]
    exact hadj ▸ List.mem_map_of_mem _ hmem

/-- Witness for C4: crew_at_gate 23:40 with atd 00:45 on day 19732 classifies
overnight, and atd is found one day later in the output. -/
theorem C4_overnight_classification_and_shift_witness :
    is_overnight C4dict = true
      ∧ ("atd", some (19733 * 86400 + 2700)) ∈ handle_midnight_crossover C4dict 19732 := by
  refine ⟨by decide, ?_⟩
  have h := (C4_overnight_classification_and_shift C4dict 19732).2 (by decide) "atd"
    (19732 * 86400 + 2700) (by decide) (by decide) (by decide)
  have heq : (19732 * 86400 + 2700 + 86400 : Int) = 19733 * 86400 + 2700 := by decide
  rw [heq] at h
  exact h

/-- Claim C5 (counterexample): with only std=23:55 and atd=00:05 on day 19732,
the gap rule does NOT shift atd forward to the next day — atd is the minimum
timestamp (gap 0) and is returned unchanged; the next-day atd value the claim
predicts is not in the output. -/
theorem C5_counterexample_atd_not_shifted_forward :
    handle_midnight_crossover C5dict 19732 =
        [("std", some (19731 * 86400 + 86100)), ("atd", some (19732 * 86400 + 300))]
      ∧ ¬(("atd", some (19733 * 86400 + 300)) ∈ handle_midnight_crossover C5dict 19732) :=
  ⟨by decide, by decide⟩

/-- Claim C5 (amended): with only std=23:55 and atd=00:05 on the same
reference date, the fallback gap rule leaves atd (the minimum) unchanged and
instead shifts std BACK one day (its gap from `min_time` exceeds +12h), and
the adjusted result still satisfies atd > std. -/
theorem C5_amended_std_shifted_back :
    handle_midnight_crossover C5dict 19732 =
        [("std", some (19731 * 86400 + 86100)), ("atd", some (19732 * 86400 + 300))]
      ∧ (19732 * 86400 + 300 : Int) > 19731 * 86400 + 86100 :=
  ⟨by decide, by decide⟩

/-- Claim C7: a null time value resolves to null, an empty string resolves to
null, and the adjuster passes any null entry through to its output unchanged;
all three operations are total. -/
theorem C7_null_propagation :
    (∀ d : Int, convert_time_string_to_datetime d TimeValue.null = none
      ∧ convert_time_string_to_datetime d (TimeValue.str "") = none)
    ∧ (∀ (dict : EventsDict) (fd : Int) (e : String),
        (e, (none : Option Int)) ∈ dict →
        (e, (none : Option Int)) ∈ handle_midnight_crossover dict fd) := by
  constructor
  · intro d
    exact ⟨rfl, rfl⟩
  · intro dict fd e hmem
    rw [handle_midnight_crossover]
    cases hv : dict.filterMap (fun p => p.2) with
    | nil => exact hmem
    | cons v vs =>
      have hadj : adjustEvent (is_overnight dict) (listMin v vs) (e, none) = (e, none) := rfl
      exact hadj ▸ List.mem_map_of_mem _ hmem

/-- Witness for C7 at day 19732 and a one-entry dict holding a null std. -/
theorem C7_null_propagation_witness :
    convert_time_string_to_datetime 19732 TimeValue.null = none
      ∧ ("std", (none : Option Int)) ∈ handle_midnight_crossover [("std", none)] 19732 :=
  ⟨(C7_null_propagation.1 19732).1,
    C7_null_propagation.2 [("std", none)] 19732 "std" (by decide)⟩

/-- Claim C8: the two duplicated multi-flight averagers return equal output
mappings on every input cohort — the adjustment strategies differ (adjusted
vs. original predecessor, one-sided vs. two-sided shift) but only ever move
samples by whole days, which the time-of-day mean cannot see. -/
theorem C8_duplicated_averagers_agree (flights_data : List Flight) :
    calculate_average_event_times flights_data
      = timeline_chart.calculate_average_event_times flights_data := by
  rw [calculate_average_event_times_eq_pure,
    timeline_calculate_average_event_times_eq_pure,
    show eventAverage = eventAverageTC from funext eventAverage_eq_TC]

/-- Claim C9: the body of the event_processing.py averager never errors on any
input — its two fallible operations are guarded by the empty-list skip — so
the `try/except` wrapper always returns the body's result (and would return
the empty mapping had an error occurred, by definition of
`calculate_average_event_times`). -/
theorem C9_averager_body_never_raises (flights_data : List Flight) :
    calc_avg_body flights_data = Except.ok (calculate_average_event_times flights_data) := by
  rw [calculate_average_event_times_eq_pure, calc_avg_body,
    calcLoop_ok eventAverageE eventAverage eventAverageE_ok flights_data eventNames]

section
attribute [local semireducible] Rat.sub Rat.mul Rat.inv Rat.add

/-- Claim C1 (code_bug evaluation): for push_back samples 23:50, 23:55 and
00:05 resolved on day 19732, the averager detects the >12h gap and runs its
pull-back adjustment, but the adjustment moves samples by whole days only and
the final mean is computed from hour/minute/second alone — so the output IS
the naive arithmetic mean of the clock values, 15:56:40, and not the
23:56:40 that treating 00:05 as 24:05 would give. -/
theorem C1_push_back_cohort_average_is_naive_clock_mean :
    calculate_average_event_times C1flights = [("push_back", 19732 * 86400 + 57400)]
      ∧ secOfDay (19732 * 86400 + 57400) = 15 * 3600 + 56 * 60 + 40
      ∧ (15 * 3600 + 56 * 60 + 40 : Int) ≠ 23 * 3600 + 56 * 60 + 40 :=
  ⟨by decide, by decide, by decide⟩

/-- Claim C6: a cohort of three flights with groomers_in at 07:00, 07:10 and
06:50, whatever their reference days, averages to a timestamp whose time of
day is exactly 07:00:00, and no other event appears in the output. -/
theorem C6_groomers_in_average_exactly_0700 (d1 d2 d3 : Int) :
    ∃ t : Int,
      calculate_average_event_times
          [C6flight d1 "07:00", C6flight d2 "07:10", C6flight d3 "06:50"]
        = [("groomers_in", t)] ∧ secOfDay t = 7 * 3600 := by
  have hs1 : strTimeSeconds "07:00" = some 25200 := by decide
  have hs2 : strTimeSeconds "07:10" = some 25800 := by decide
  have hs3 : strTimeSeconds "06:50" = some 24600 := by decide
  have ht1 : TimeValue.truthy (TimeValue.str "07:00") = true := by decide
  have ht2 : TimeValue.truthy (TimeValue.str "07:10") = true := by decide
  have ht3 : TimeValue.truthy (TimeValue.str "06:50") = true := by decide
  have h1 : convert_time_string_to_datetime d1 (TimeValue.str "07:00")
      = some (d1 * 86400 + 25200) := by
    simp [convert_time_string_to_datetime, hs1]
  have h2 : convert_time_string_to_datetime d2 (TimeValue.str "07:10")
      = some (d2 * 86400 + 25800) := by
    simp [convert_time_string_to_datetime, hs2]
  have h3 : convert_time_string_to_datetime d3 (TimeValue.str "06:50")
      = some (d3 * 86400 + 24600) := by
    simp [convert_time_string_to_datetime, hs3]
  have hcol : collectEventTimes
      [C6flight d1 "07:00", C6flight d2 "07:10", C6flight d3 "06:50"] "groomers_in"
      = [d1 * 86400 + 25200, d2 * 86400 + 25800, d3 * 86400 + 24600] := by
    simp [collectEventTimes, C6flight, ht1, ht2, ht3, h1, h2, h3]
  have hother : ∀ e : String, e ≠ "groomers_in" →
      collectEventTimes
        [C6flight d1 "07:00", C6flight d2 "07:10", C6flight d3 "06:50"] e = [] := by
    intro e he
    simp [collectEventTimes, C6flight, TimeValue.truthy, he]
  have hne : ([d1 * 86400 + 25200, d2 * 86400 + 25800, d3 * 86400 + 24600]
      : List Int).isEmpty = false := rfl
  have havgt : avgTimeOfDay [d1 * 86400 + 25200, d2 * 86400 + 25800, d3 * 86400 + 24600]
      = 25200 := by
    have e1 : secOfDay (d1 * 86400 + 25200) = 25200 := by
      rw [secOfDay]; omega
    have e2 : secOfDay (d2 * 86400 + 25800) = 25800 := by
      rw [secOfDay]; omega
    have e3 : secOfDay (d3 * 86400 + 24600) = 24600 := by
      rw [secOfDay]; omega
    rw [avgTimeOfDay]
    simp only [List.map_cons, List.map_nil, e1, e2, e3, List.sum_cons, List.sum_nil,
      List.length_cons, List.length_nil]
    norm_num
    decide
  have hspec := eventAverage_spec
    [d1 * 86400 + 25200, d2 * 86400 + 25800, d3 * 86400 + 24600] hne
  rw [havgt] at hspec
  refine ⟨(sortTimes [d1 * 86400 + 25200, d2 * 86400 + 25800,
      d3 * 86400 + 24600]).headD 0 / 86400 * 86400 + 25200, ?_, ?_⟩
  · rw [calculate_average_event_times_eq_pure]
    have hg1 := hother "groomers_out" (by decide)
    have hg2 := hother "crew_at_gate" (by decide)
    have hg3 := hother "ok_to_board" (by decide)
    have hg4 := hother "flight_secure" (by decide)
    have hg5 := hother "cierre_de_puerta" (by decide)
    have hg6 := hother "push_back" (by decide)
    have hg7 := hother "std" (by decide)
    have hg8 := hother "atd" (by decide)
    have hnil : eventAverage ([] : List Int) = none := rfl
    simp only [eventNames, calcLoopPure, hcol, hg1, hg2, hg3, hg4, hg5, hg6, hg7, hg8,
      hnil, hspec]
  · rw [secOfDay]
    omega

end

/-- Witness for C6 at concrete reference days 19732, 19732 and 19733. -/
theorem C6_groomers_in_average_exactly_0700_witness :
    ∃ t : Int,
      calculate_average_event_times
          [C6flight 19732 "07:00", C6flight 19732 "07:10", C6flight 19733 "06:50"]
        = [("groomers_in", t)] ∧ secOfDay t = 7 * 3600 :=
  C6_groomers_in_average_exactly_0700 19732 19732 19733

/-- Witness for C8 at the C1 cohort. -/
theorem C8_duplicated_averagers_agree_witness :
    calculate_average_event_times C1flights
      = timeline_chart.calculate_average_event_times C1flights :=
  C8_duplicated_averagers_agree C1flights

/-- Witness for C9 at the C1 cohort. -/
theorem C9_averager_body_never_raises_witness :
    calc_avg_body C1flights = Except.ok (calculate_average_event_times C1flights) :=
  C9_averager_body_never_raises C1flights
